import Mathlib

/-!
Verification development for the tutoring-request saga orchestrator
(`solicitarTutoria` in src/ms-tutorias/src/domain/services/tutoria.service.js).

The orchestrator is embedded as a pure Lean function.  The outcomes of the
external collaborator calls (user lookups, schedule availability / lock /
unlock, record-store saves, queue publish) are supplied by an `Oracle`
value: each field is the outcome the corresponding collaborator call would
produce, were it made during the run.  The function returns the ordered
trace of observable actions (tracking emissions and collaborator calls,
in program order) together with the JS return / throw outcome.
-/

namespace Tutorias

/-- Value of one field of the tracking-event object literal built by the
`track` helper (tutoria.service.js lines 8–16).  The wall-clock value of
`new Date()` is abstracted as `date 0`; no property depends on it. -/
inductive JVal where
  | str (s : String)
  | date (t : Nat)
  deriving DecidableEq, Repr

/-- The object literal passed to `publishTrackingEvent` by the `track`
helper (lines 8–16), kept as an association list so that the field NAMES
used by the source are observable: `service`, `message`, `cid`,
`timestamp`, `status`. -/
def trackPayload (cid msg status : String) : List (String × JVal) :=
  [("service", JVal.str "MS_Tutorias"),
   ("message", JVal.str msg),
   ("cid", JVal.str cid),
   ("timestamp", JVal.date 0),
   ("status", JVal.str status)]

/-- A user object returned by `usuariosClient.getUsuario`.  The orchestrator
reads `email`, `nombrecompleto` and `nombreCompleto` (lines 86–87); the
latter two may be absent (`undefined`), hence `Option`. -/
structure Usuario where
  email : String
  nombrecompleto : Option String
  nombreCompleto : Option String
  deriving DecidableEq, Repr

/-- The request payload `datosSolicitud` destructured on line 19. -/
structure Solicitud where
  idEstudiante : String
  idTutor : String
  fechaSolicitada : String
  duracionMinutos : Nat
  materia : String
  deriving DecidableEq, Repr

/-- The record returned by `tutoriaRepository.save` for the PENDING create
(line 60).  The orchestrator only ever reads its `idtutoria` field
(lines 62, 101, 145, 150); JS lets that field be absent, hence `Option`. -/
structure PendRec where
  idtutoria : Option Int
  deriving DecidableEq, Repr

/-- JS truthiness of the `idtutoria` field as tested by the guard
`nuevaTutoria && nuevaTutoria.idtutoria` on line 145: a number is truthy
iff present and nonzero. -/
def truthyId : Option Int → Bool
  | some n => n ≠ 0
  | none => false

/-- Modelled from the spec: the record store
(src/ms-tutorias/src/infrastructure/repositories/tutoria.repository.js is
not under src/) satisfies `save(record) -> record`, so the value returned
by the final CONFIRMADA save (line 106) is the record as saved: the id it
was addressed with, `estado` and `error` as in the payload of lines
100–104. -/
structure ConfRec where
  idTutoria : Option Int
  estado : String
  errorDetail : Option String
  deriving DecidableEq, Repr

/-- The payload of the PENDING create on lines 52–58 (field `fecha` holds
`new Date(fechaSolicitada)`, abstracted as the source string). -/
structure TutoriaPendientePayload where
  idEstudiante : String
  idTutor : String
  fecha : String
  materia : String
  estado : String
  deriving DecidableEq, Repr

/-- The payload of the two update saves, lines 100–104 (CONFIRMADA) and
lines 149–153 (FALLIDA): `{idTutoria, estado, error}`. -/
structure TutoriaUpdatePayload where
  idTutoria : Option Int
  estado : String
  error : Option String
  deriving DecidableEq, Repr

/-- Argument of a `tutoriaRepository.save` call: either the PENDING create
payload or an update payload. -/
inductive SavePayload where
  | pendiente (p : TutoriaPendientePayload)
  | update (p : TutoriaUpdatePayload)
  deriving DecidableEq, Repr

/-- The `bloqueoPayload` object of lines 69–73. -/
structure BloqueoPayload where
  fechaInicio : String
  duracionMinutos : Nat
  idEstudiante : String
  deriving DecidableEq, Repr

/-- The payload passed to `cancelarBloqueo` on lines 125–128 (no
`idEstudiante` field there). -/
structure CancelPayload where
  fechaInicio : String
  duracionMinutos : Nat
  deriving DecidableEq, Repr

/-- The `payloadNotificacion` object of lines 84–89. -/
structure NotifPayload where
  destinatario : String
  asunto : String
  cuerpo : String
  correlationId : String
  deriving DecidableEq, Repr

/-- One observable action of a run, in program order: a tracking emission
or a collaborator call with the arguments the source passes it.  Note that
the `saveCall` events carry no correlation id: the source calls
`tutoriaRepository.save(payload)` with the payload as its only argument
(lines 60, 106, 149). -/
inductive Event where
  | trackEv (payload : List (String × JVal))
  | getUsuario (kind id cid : String)
  | verificarDisponibilidad (idTutor fecha cid : String)
  | saveCall (p : SavePayload)
  | bloquearAgenda (idTutor : String) (p : BloqueoPayload) (cid : String)
  | publishToQueue (queue : String) (p : NotifPayload)
  | cancelarBloqueo (idTutor : String) (p : CancelPayload) (cid : String)
  deriving DecidableEq, Repr

/-- The `track` helper of lines 8–16 as an event constructor. -/
def track (cid msg status : String) : Event :=
  Event.trackEv (trackPayload cid msg status)

/-- A JS thrown value as this service sees it: an object with an optional
`statusCode` and a `message`.  The orchestrator's own throws (lines 33,
34, 44, 166–169) set both; collaborator failures carry a message only. -/
structure Err where
  statusCode : Option Nat
  message : String
  deriving DecidableEq, Repr

/-- Modelled from the spec: outcomes of the collaborator calls.  The
collaborator implementations (usuarios.client.js, agenda.client.js,
tutoria.repository.js, message.producer.js) are not under src/; per the
spec they are narrow capabilities — `lookupUser -> User|NotFound`,
`checkAvailability -> bool`, `lock/unlock -> ok|error`,
`save -> record|error`, `publish -> void` — whose failures are
unclassified (message only, no status code).  Each field is the outcome
the correspondingly named call yields if the run reaches it.
`publishFails` records whether the fire-and-forget publish fails; the
call is not awaited by the source (line 91), so this outcome never
enters the orchestrator's control flow. -/
structure Oracle where
  getEstudiante : Except String (Option Usuario)
  getTutor : Except String (Option Usuario)
  verificarDisponibilidad : Except String Bool
  savePendiente : Except String PendRec
  bloquearAgenda : Except String Unit
  publishFails : Bool
  saveConfirmada : Except String Unit
  cancelarBloqueo : Except String Unit
  saveFallida : Except String Unit

/-- JS `a || b` for two possibly-absent strings interpolated into a
template literal (line 87): an absent or empty left operand falls through
to the right, and a fully absent value prints as `undefined`. -/
def jsOrStr (a b : Option String) : String :=
  match a with
  | some s => if s = "" then (match b with | some t => t | none => "undefined") else s
  | none => match b with | some t => t | none => "undefined"

/-- JS `error.statusCode || 500` of line 167: absent or zero (falsy)
status codes become 500. -/
def jsOrCode : Option Nat → Nat
  | some n => if n = 0 then 500 else n
  | none => 500

/-- JS template interpolation of the possibly-absent numeric `idtutoria`
(line 62). -/
def showId : Option Int → String
  | some n => toString n
  | none => "undefined"

/-- Trace prefix after step 1 is issued: the `track` of line 27 and the
two concurrent `getUsuario` calls of lines 28–31 (both requests start
before either outcome is observed). -/
def traceUsers (d : Solicitud) (cid : String) : List Event :=
  [track cid "Validando usuarios..." "INFO",
   Event.getUsuario "estudiantes" d.idEstudiante cid,
   Event.getUsuario "tutores" d.idTutor cid]

/-- Trace prefix after step 2 is issued (lines 36–42). -/
def traceAgenda (d : Solicitud) (cid : String) : List Event :=
  traceUsers d cid ++
  [track cid "Usuarios validados exitosamente." "INFO",
   track cid "Verificando disponibilidad de agenda..." "INFO",
   Event.verificarDisponibilidad d.idTutor d.fechaSolicitada cid]

/-- Trace prefix after step 3 is issued (lines 46–60). -/
def traceSave (d : Solicitud) (cid : String) : List Event :=
  traceAgenda d cid ++
  [track cid "Agenda disponible." "INFO",
   track cid "Creando tutoría en estado PENDIENTE..." "INFO",
   Event.saveCall (SavePayload.pendiente
     ⟨d.idEstudiante, d.idTutor, d.fechaSolicitada, d.materia, "PENDIENTE"⟩)]

/-- Trace prefix after step 4 is issued (lines 62–75). -/
def traceBloqueo (d : Solicitud) (cid : String) (nt : PendRec) : List Event :=
  traceSave d cid ++
  [track cid ("Tutoría PENDIENTE creada (ID: " ++ showId nt.idtutoria ++ ").") "INFO",
   track cid "Bloqueando horario en agenda..." "INFO",
   Event.bloquearAgenda d.idTutor ⟨d.fechaSolicitada, d.duracionMinutos, d.idEstudiante⟩ cid]

/-- The `payloadNotificacion` built on lines 84–89. -/
def notifPayload (d : Solicitud) (cid : String) (est tut : Usuario) : NotifPayload :=
  ⟨est.email,
   "Tutoría de " ++ d.materia ++ " confirmada",
   "Hola " ++ jsOrStr est.nombrecompleto est.nombreCompleto ++ ", tu tutoría con " ++
     jsOrStr tut.nombrecompleto tut.nombreCompleto ++ " ha sido confirmada.",
   cid⟩

/-- Trace prefix after steps 5 and 6 are issued (lines 77–106).  The
publish of line 91 is not awaited, so the run always proceeds to line 93
regardless of the publish outcome. -/
def traceConfirm (d : Solicitud) (cid : String) (nt : PendRec) (est tut : Usuario) : List Event :=
  traceBloqueo d cid nt ++
  [track cid "Bloqueo de agenda exitoso." "INFO",
   track cid "Publicando evento de notificación..." "INFO",
   Event.publishToQueue "notificaciones_email_queue" (notifPayload d cid est tut),
   track cid "Evento de notificación enviado." "INFO",
   track cid "Actualizando tutoría a CONFIRMADA..." "INFO",
   Event.saveCall (SavePayload.update ⟨nt.idtutoria, "CONFIRMADA", none⟩)]

/-- The `try` block of `solicitarTutoria` (lines 23–110): returns the
trace of the forward pass, the value of the `nuevaTutoria` variable at
the moment the block exits (set once step 3's save succeeds, line 60),
and the block's outcome — the confirmed record or the thrown value. -/
def tryBody (o : Oracle) (d : Solicitud) (cid : String) :
    List Event × Option PendRec × Except Err ConfRec :=
  match o.getEstudiante with
  | .error m => (traceUsers d cid, none, .error ⟨none, m⟩)
  | .ok estOpt =>
    match o.getTutor with
    | .error m => (traceUsers d cid, none, .error ⟨none, m⟩)
    | .ok tutOpt =>
      match estOpt with
      | none => (traceUsers d cid, none, .error ⟨some 404, "Estudiante no encontrado"⟩)
      | some est =>
        match tutOpt with
        | none => (traceUsers d cid, none, .error ⟨some 404, "Tutor no encontrado"⟩)
        | some tut =>
          match o.verificarDisponibilidad with
          | .error m => (traceAgenda d cid, none, .error ⟨none, m⟩)
          | .ok disponible =>
            if disponible then
              match o.savePendiente with
              | .error m => (traceSave d cid, none, .error ⟨none, m⟩)
              | .ok nuevaTutoria =>
                match o.bloquearAgenda with
                | .error m =>
                    (traceBloqueo d cid nuevaTutoria, some nuevaTutoria, .error ⟨none, m⟩)
                | .ok _ =>
                  match o.saveConfirmada with
                  | .error m =>
                      (traceConfirm d cid nuevaTutoria est tut, some nuevaTutoria,
                       .error ⟨none, m⟩)
                  | .ok _ =>
                      (traceConfirm d cid nuevaTutoria est tut ++
                         [track cid "Tutoría CONFIRMADA correctamente." "INFO"],
                       some nuevaTutoria,
                       .ok ⟨nuevaTutoria.idtutoria, "CONFIRMADA", none⟩)
            else
              (traceAgenda d cid, none, .error ⟨some 409, "Horario no disponible"⟩)

/-- Catch-block trace up to and including the unconditional
`cancelarBloqueo` call (lines 113–130; the `console.error` of line 113 is
pure process logging, not a tracked event or collaborator call). -/
def catchTrace1 (d : Solicitud) (cid : String) (e : Err) : List Event :=
  [track cid ("ERROR: " ++ e.message) "ERROR",
   track cid "Compensación: cancelando bloqueo de agenda..." "ERROR",
   Event.cancelarBloqueo d.idTutor ⟨d.fechaSolicitada, d.duracionMinutos⟩ cid]

/-- Tracking emitted for the unlock outcome (lines 132–140). -/
def cancelOutcomeTrace (o : Oracle) (cid : String) : List Event :=
  match o.cancelarBloqueo with
  | .ok _ => [track cid "Bloqueo de agenda revertido." "ERROR"]
  | .error cm =>
      [track cid ("ERROR CRÍTICO al intentar revertir el bloqueo en agenda: " ++ cm) "ERROR"]

/-- The guarded mark-FAILED compensation (lines 145–164): runs only when
`nuevaTutoria && nuevaTutoria.idtutoria` is truthy; its own failure is
caught and only tracked. -/
def markFailedTrace (o : Oracle) (cid : String) (nt? : Option PendRec) (e : Err) : List Event :=
  match nt? with
  | none => []
  | some nt =>
    if truthyId nt.idtutoria then
      [track cid "Marcando tutoría como FALLIDA..." "ERROR",
       Event.saveCall (SavePayload.update ⟨nt.idtutoria, "FALLIDA", some e.message⟩)] ++
      (match o.saveFallida with
       | .ok _ => [track cid "Tutoría marcada como FALLIDA." "ERROR"]
       | .error cm => [track cid ("ERROR CRÍTICO guardando tutoría FALLIDA: " ++ cm) "ERROR"])
    else []

/-- Full catch-block trace (lines 112–164). -/
def catchTrace (o : Oracle) (d : Solicitud) (cid : String) (nt? : Option PendRec) (e : Err) :
    List Event :=
  catchTrace1 d cid e ++ cancelOutcomeTrace o cid ++ markFailedTrace o cid nt? e

/-- The value rethrown to the caller (lines 166–169):
`{statusCode: error.statusCode || 500, message: ...}`. -/
def rethrownErr (e : Err) : Err :=
  ⟨some (jsOrCode e.statusCode), "No se pudo completar la solicitud: " ++ e.message⟩

/-- The whole of `solicitarTutoria` (lines 18–171): the forward pass, and
on a thrown value the catch block followed by the classified rethrow. -/
def solicitarTutoria (o : Oracle) (d : Solicitud) (cid : String) :
    List Event × Except Err ConfRec :=
  match tryBody o d cid with
  | (tr, _, .ok v) => (tr, .ok v)
  | (tr, nt?, .error e) =>
      (tr ++ catchTrace o d cid nt? e, .error (rethrownErr e))

/-- Is this event the schedule-unlock call `agendaClient.cancelarBloqueo`? -/
def isCancelarEv : Event → Bool
  | .cancelarBloqueo _ _ _ => true
  | _ => false

/-- Is this event the schedule-lock call `agendaClient.bloquearAgenda`? -/
def isBloquearEv : Event → Bool
  | .bloquearAgenda _ _ _ => true
  | _ => false

/-- Is this event a `tutoriaRepository.save` call? -/
def isSaveEv : Event → Bool
  | .saveCall _ => true
  | _ => false

/-- Is this event the save that marks the record FALLIDA? -/
def isSaveFallidaEv : Event → Bool
  | .saveCall (.update p) => p.estado == "FALLIDA"
  | _ => false

/-- Is this event a tracking emission? -/
def isTrackEv : Event → Bool
  | .trackEv _ => true
  | _ => false

/-- The `status` field of a tracking event. -/
def trackStatusOf : Event → Option String
  | .trackEv p =>
      match p.lookup "status" with
      | some (JVal.str s) => some s
      | _ => none
  | _ => none

/-- The `cid` field of a tracking event. -/
def trackCidOf : Event → Option String
  | .trackEv p =>
      match p.lookup "cid" with
      | some (JVal.str s) => some s
      | _ => none
  | _ => none

/-- Is this event a tracking emission with INFO severity? -/
def isInfoTrack (ev : Event) : Bool := trackStatusOf ev == some "INFO"

/-- Is this event a tracking emission with ERROR severity? -/
def isErrorTrack (ev : Event) : Bool := trackStatusOf ev == some "ERROR"

/-- The correlation-id argument a collaborator call was given: the
explicit `correlationId` parameter for the client calls, the
`correlationId` payload field for the queue publish, and nothing for the
repository saves (the source passes them none). -/
def eventCid : Event → Option String
  | .getUsuario _ _ c => some c
  | .verificarDisponibilidad _ _ c => some c
  | .saveCall _ => none
  | .bloquearAgenda _ _ c => some c
  | .publishToQueue _ p => some p.correlationId
  | .cancelarBloqueo _ _ c => some c
  | .trackEv _ => none



lemma solicitar_ok (o : Oracle) (d : Solicitud) (cid : String) (v : ConfRec)
    (h : (tryBody o d cid).2.2 = Except.ok v) :
    solicitarTutoria o d cid = ((tryBody o d cid).1, Except.ok v) := by
  rcases htb : tryBody o d cid with ⟨tr, nt?, r⟩
  rw [htb] at h
  simp at h
  subst h
  simp [solicitarTutoria, htb]

lemma solicitar_err (o : Oracle) (d : Solicitud) (cid : String) (e : Err)
    (h : (tryBody o d cid).2.2 = Except.error e) :
    solicitarTutoria o d cid =
      ((tryBody o d cid).1 ++ catchTrace o d cid (tryBody o d cid).2.1 e,
       Except.error (rethrownErr e)) := by
  rcases htb : tryBody o d cid with ⟨tr, nt?, r⟩
  rw [htb] at h
  simp at h
  subst h
  simp [solicitarTutoria, htb]

lemma tryBody_cases (o : Oracle) (d : Solicitud) (cid : String) :
    (∃ m, o.getEstudiante = Except.error m ∧
      tryBody o d cid = (traceUsers d cid, none, Except.error ⟨none, m⟩)) ∨
    (∃ m, o.getTutor = Except.error m ∧
      tryBody o d cid = (traceUsers d cid, none, Except.error ⟨none, m⟩)) ∨
    (tryBody o d cid = (traceUsers d cid, none, Except.error ⟨some 404, "Estudiante no encontrado"⟩)) ∨
    (tryBody o d cid = (traceUsers d cid, none, Except.error ⟨some 404, "Tutor no encontrado"⟩)) ∨
    (∃ m, o.verificarDisponibilidad = Except.error m ∧
      tryBody o d cid = (traceAgenda d cid, none, Except.error ⟨none, m⟩)) ∨
    (tryBody o d cid = (traceAgenda d cid, none, Except.error ⟨some 409, "Horario no disponible"⟩)) ∨
    (∃ m, o.savePendiente = Except.error m ∧
      tryBody o d cid = (traceSave d cid, none, Except.error ⟨none, m⟩)) ∨
    (∃ nt m, o.savePendiente = Except.ok nt ∧ o.bloquearAgenda = Except.error m ∧
      tryBody o d cid = (traceBloqueo d cid nt, some nt, Except.error ⟨none, m⟩)) ∨
    (∃ nt est tut m, o.savePendiente = Except.ok nt ∧ o.saveConfirmada = Except.error m ∧
      tryBody o d cid = (traceConfirm d cid nt est tut, some nt, Except.error ⟨none, m⟩)) ∨
    (∃ nt est tut, o.savePendiente = Except.ok nt ∧
      tryBody o d cid = (traceConfirm d cid nt est tut ++
        [track cid "Tutoría CONFIRMADA correctamente." "INFO"], some nt,
        Except.ok ⟨nt.idtutoria, "CONFIRMADA", none⟩)) := by
  rcases h1 : o.getEstudiante with m | estOpt
  · exact Or.inl ⟨m, rfl, by simp [tryBody, h1]⟩
  rcases h2 : o.getTutor with m | tutOpt
  · exact Or.inr (Or.inl ⟨m, rfl, by simp [tryBody, h1, h2]⟩)
  rcases estOpt with _ | est
  · exact Or.inr (Or.inr (Or.inl (by simp [tryBody, h1, h2])))
  rcases tutOpt with _ | tut
  · exact Or.inr (Or.inr (Or.inr (Or.inl (by simp [tryBody, h1, h2]))))
  rcases h3 : o.verificarDisponibilidad with m | disp
  · exact Or.inr (Or.inr (Or.inr (Or.inr (Or.inl ⟨m, rfl, by simp [tryBody, h1, h2, h3]⟩))))
  rcases disp with _ | _
  · exact Or.inr (Or.inr (Or.inr (Or.inr (Or.inr (Or.inl (by simp [tryBody, h1, h2, h3]))))))
  rcases h4 : o.savePendiente with m | nt
  · exact Or.inr (Or.inr (Or.inr (Or.inr (Or.inr (Or.inr (Or.inl
      ⟨m, rfl, by simp [tryBody, h1, h2, h3, h4]⟩))))))
  rcases h5 : o.bloquearAgenda with m | u
  · exact Or.inr (Or.inr (Or.inr (Or.inr (Or.inr (Or.inr (Or.inr (Or.inl
      ⟨nt, m, rfl, rfl, by simp [tryBody, h1, h2, h3, h4, h5]⟩)))))))
  rcases h6 : o.saveConfirmada with m | u2
  · exact Or.inr (Or.inr (Or.inr (Or.inr (Or.inr (Or.inr (Or.inr (Or.inr (Or.inl
      ⟨nt, est, tut, m, rfl, rfl, by simp [tryBody, h1, h2, h3, h4, h5, h6]⟩))))))))
  · exact Or.inr (Or.inr (Or.inr (Or.inr (Or.inr (Or.inr (Or.inr (Or.inr (Or.inr
      ⟨nt, est, tut, rfl, by simp [tryBody, h1, h2, h3, h4, h5, h6]⟩))))))))

lemma cancel_count_tryBody (o : Oracle) (d : Solicitud) (cid : String) :
    ((tryBody o d cid).1.countP isCancelarEv) = 0 := by
  rcases tryBody_cases o d cid with ⟨m, _, h⟩ | ⟨m, _, h⟩ | h | h | ⟨m, _, h⟩ | h |
    ⟨m, _, h⟩ | ⟨nt, m, _, _, h⟩ | ⟨nt, est, tut, m, _, _, h⟩ | ⟨nt, est, tut, _, h⟩ <;>
    rw [h] <;> rfl

lemma fallida_count_tryBody (o : Oracle) (d : Solicitud) (cid : String) :
    ((tryBody o d cid).1.countP isSaveFallidaEv) = 0 := by
  rcases tryBody_cases o d cid with ⟨m, _, h⟩ | ⟨m, _, h⟩ | h | h | ⟨m, _, h⟩ | h |
    ⟨m, _, h⟩ | ⟨nt, m, _, _, h⟩ | ⟨nt, est, tut, m, _, _, h⟩ | ⟨nt, est, tut, _, h⟩ <;>
    rw [h] <;> rfl

lemma cancel_count_cancelOutcome (o : Oracle) (cid : String) :
    ((cancelOutcomeTrace o cid).countP isCancelarEv) = 0 := by
  unfold cancelOutcomeTrace
  rcases o.cancelarBloqueo <;> rfl

lemma fallida_count_cancelOutcome (o : Oracle) (cid : String) :
    ((cancelOutcomeTrace o cid).countP isSaveFallidaEv) = 0 := by
  unfold cancelOutcomeTrace
  rcases o.cancelarBloqueo <;> rfl

lemma bloquear_count_cancelOutcome (o : Oracle) (cid : String) :
    ((cancelOutcomeTrace o cid).countP isBloquearEv) = 0 := by
  unfold cancelOutcomeTrace
  rcases o.cancelarBloqueo <;> rfl

lemma cancel_count_markFailed (o : Oracle) (cid : String) (nt? : Option PendRec) (e : Err) :
    ((markFailedTrace o cid nt? e).countP isCancelarEv) = 0 := by
  unfold markFailedTrace
  rcases nt? with _ | nt
  · rfl
  rcases htr : truthyId nt.idtutoria
  · simp [htr]
  · simp only [htr, if_true]
    rcases o.saveFallida <;> rfl

lemma bloquear_count_markFailed (o : Oracle) (cid : String) (nt? : Option PendRec) (e : Err) :
    ((markFailedTrace o cid nt? e).countP isBloquearEv) = 0 := by
  unfold markFailedTrace
  rcases nt? with _ | nt
  · rfl
  rcases htr : truthyId nt.idtutoria
  · simp [htr]
  · simp only [htr, if_true]
    rcases o.saveFallida <;> rfl

lemma fallida_count_markFailed_truthy (o : Oracle) (cid : String) (nt : PendRec) (e : Err)
    (h : truthyId nt.idtutoria = true) :
    ((markFailedTrace o cid (some nt) e).countP isSaveFallidaEv) = 1 := by
  unfold markFailedTrace
  simp only [h, if_true]
  rcases o.saveFallida <;> rfl

lemma markFailed_falsy (o : Oracle) (cid : String) (nt : PendRec) (e : Err)
    (h : truthyId nt.idtutoria = false) :
    markFailedTrace o cid (some nt) e = [] := by
  unfold markFailedTrace
  simp [h]

lemma cancel_count_catch (o : Oracle) (d : Solicitud) (cid : String)
    (nt? : Option PendRec) (e : Err) :
    ((catchTrace o d cid nt? e).countP isCancelarEv) = 1 := by
  unfold catchTrace
  rw [List.countP_append, List.countP_append,
    cancel_count_cancelOutcome, cancel_count_markFailed]
  rfl

lemma bloquear_count_catch (o : Oracle) (d : Solicitud) (cid : String)
    (nt? : Option PendRec) (e : Err) :
    ((catchTrace o d cid nt? e).countP isBloquearEv) = 0 := by
  unfold catchTrace
  rw [List.countP_append, List.countP_append,
    bloquear_count_cancelOutcome, bloquear_count_markFailed]
  rfl

lemma nt_some_savePendiente (o : Oracle) (d : Solicitud) (cid : String) (nt : PendRec)
    (h : (tryBody o d cid).2.1 = some nt) : o.savePendiente = Except.ok nt := by
  rcases tryBody_cases o d cid with ⟨m, _, h1⟩ | ⟨m, _, h1⟩ | h1 | h1 | ⟨m, _, h1⟩ | h1 |
    ⟨m, _, h1⟩ | ⟨nt2, m, hs, _, h1⟩ | ⟨nt2, est, tut, m, hs, _, h1⟩ | ⟨nt2, est, tut, hs, h1⟩ <;>
    rw [h1] at h <;> simp at h
  · rwa [← h]
  · rwa [← h]
  · rwa [← h]

lemma nt_none_no_lock (o : Oracle) (d : Solicitud) (cid : String)
    (h : (tryBody o d cid).2.1 = none) :
    ((tryBody o d cid).1.countP isBloquearEv) = 0 := by
  rcases tryBody_cases o d cid with ⟨m, _, h1⟩ | ⟨m, _, h1⟩ | h1 | h1 | ⟨m, _, h1⟩ | h1 |
    ⟨m, _, h1⟩ | ⟨nt2, m, hs, _, h1⟩ | ⟨nt2, est, tut, m, hs, _, h1⟩ | ⟨nt2, est, tut, hs, h1⟩ <;>
    rw [h1] at h ⊢ <;> first | rfl | simp at h

lemma tryBody_err_shape (o : Oracle) (d : Solicitud) (cid : String) (e : Err)
    (h : (tryBody o d cid).2.2 = Except.error e) :
    e = ⟨some 404, "Estudiante no encontrado"⟩ ∨ e = ⟨some 404, "Tutor no encontrado"⟩ ∨
    e = ⟨some 409, "Horario no disponible"⟩ ∨ e.statusCode = none := by
  rcases tryBody_cases o d cid with ⟨m, _, h1⟩ | ⟨m, _, h1⟩ | h1 | h1 | ⟨m, _, h1⟩ | h1 |
    ⟨m, _, h1⟩ | ⟨nt2, m, hs, _, h1⟩ | ⟨nt2, est, tut, m, hs, _, h1⟩ | ⟨nt2, est, tut, hs, h1⟩ <;>
    rw [h1] at h <;> simp at h <;> subst h <;> simp

/-- Per-event invariant: every tracking event has exactly the shape the
`track` helper builds, with the run's correlation id and INFO or ERROR
severity; every client call and the queue publish carry the run's
correlation id; save payloads relate `estado` and `error` as the source
writes them. -/
def EvOK (cid : String) : Event → Prop
  | .trackEv p => ∃ m s, p = trackPayload cid m s ∧ (s = "INFO" ∨ s = "ERROR")
  | .saveCall (.pendiente p) => p.estado = "PENDIENTE"
  | .saveCall (.update p) => p.estado = "FALLIDA" ↔ p.error ≠ none
  | .getUsuario _ _ c => c = cid
  | .verificarDisponibilidad _ _ c => c = cid
  | .bloquearAgenda _ _ c => c = cid
  | .publishToQueue _ p => p.correlationId = cid
  | .cancelarBloqueo _ _ c => c = cid

lemma evOK_traceUsers (d : Solicitud) (cid : String) :
    ∀ ev ∈ traceUsers d cid, EvOK cid ev := by
  intro ev hev
  simp [traceUsers, track] at hev
  rcases hev with rfl | rfl | rfl
  · exact ⟨_, _, rfl, Or.inl rfl⟩
  · rfl
  · rfl

lemma evOK_traceAgenda (d : Solicitud) (cid : String) :
    ∀ ev ∈ traceAgenda d cid, EvOK cid ev := by
  intro ev hev
  unfold traceAgenda at hev
  rcases List.mem_append.mp hev with h | h
  · exact evOK_traceUsers d cid ev h
  · simp [track] at h
    rcases h with rfl | rfl | rfl
    · exact ⟨_, _, rfl, Or.inl rfl⟩
    · exact ⟨_, _, rfl, Or.inl rfl⟩
    · rfl

lemma evOK_traceSave (d : Solicitud) (cid : String) :
    ∀ ev ∈ traceSave d cid, EvOK cid ev := by
  intro ev hev
  unfold traceSave at hev
  rcases List.mem_append.mp hev with h | h
  · exact evOK_traceAgenda d cid ev h
  · simp [track] at h
    rcases h with rfl | rfl | rfl
    · exact ⟨_, _, rfl, Or.inl rfl⟩
    · exact ⟨_, _, rfl, Or.inl rfl⟩
    · rfl

lemma evOK_traceBloqueo (d : Solicitud) (cid : String) (nt : PendRec) :
    ∀ ev ∈ traceBloqueo d cid nt, EvOK cid ev := by
  intro ev hev
  unfold traceBloqueo at hev
  rcases List.mem_append.mp hev with h | h
  · exact evOK_traceSave d cid ev h
  · simp [track] at h
    rcases h with rfl | rfl | rfl
    · exact ⟨_, _, rfl, Or.inl rfl⟩
    · exact ⟨_, _, rfl, Or.inl rfl⟩
    · rfl

lemma evOK_traceConfirm (d : Solicitud) (cid : String) (nt : PendRec) (est tut : Usuario) :
    ∀ ev ∈ traceConfirm d cid nt est tut, EvOK cid ev := by
  intro ev hev
  unfold traceConfirm at hev
  rcases List.mem_append.mp hev with h | h
  · exact evOK_traceBloqueo d cid nt ev h
  · simp [track] at h
    rcases h with rfl | rfl | rfl | rfl | rfl | rfl
    · exact ⟨_, _, rfl, Or.inl rfl⟩
    · exact ⟨_, _, rfl, Or.inl rfl⟩
    · rfl
    · exact ⟨_, _, rfl, Or.inl rfl⟩
    · exact ⟨_, _, rfl, Or.inl rfl⟩
    · simp [EvOK]

lemma evOK_tryBody (o : Oracle) (d : Solicitud) (cid : String) :
    ∀ ev ∈ (tryBody o d cid).1, EvOK cid ev := by
  rcases tryBody_cases o d cid with ⟨m, _, h1⟩ | ⟨m, _, h1⟩ | h1 | h1 | ⟨m, _, h1⟩ | h1 |
    ⟨m, _, h1⟩ | ⟨nt2, m, hs, _, h1⟩ | ⟨nt2, est, tut, m, hs, _, h1⟩ | ⟨nt2, est, tut, hs, h1⟩ <;>
    rw [h1]
  · exact evOK_traceUsers d cid
  · exact evOK_traceUsers d cid
  · exact evOK_traceUsers d cid
  · exact evOK_traceUsers d cid
  · exact evOK_traceAgenda d cid
  · exact evOK_traceAgenda d cid
  · exact evOK_traceSave d cid
  · exact evOK_traceBloqueo d cid nt2
  · exact evOK_traceConfirm d cid nt2 est tut
  · intro ev hev
    rcases List.mem_append.mp hev with h | h
    · exact evOK_traceConfirm d cid nt2 est tut ev h
    · simp [track] at h
      subst h
      exact ⟨_, _, rfl, Or.inl rfl⟩

lemma evOK_catchTrace1 (d : Solicitud) (cid : String) (e : Err) :
    ∀ ev ∈ catchTrace1 d cid e, EvOK cid ev := by
  intro ev hev
  simp [catchTrace1, track] at hev
  rcases hev with rfl | rfl | rfl
  · exact ⟨_, _, rfl, Or.inr rfl⟩
  · exact ⟨_, _, rfl, Or.inr rfl⟩
  · rfl

lemma evOK_cancelOutcome (o : Oracle) (cid : String) :
    ∀ ev ∈ cancelOutcomeTrace o cid, EvOK cid ev := by
  intro ev hev
  unfold cancelOutcomeTrace at hev
  rcases hc : o.cancelarBloqueo with m | u <;> rw [hc] at hev <;> simp [track] at hev <;>
    subst hev <;> exact ⟨_, _, rfl, Or.inr rfl⟩

lemma evOK_markFailed (o : Oracle) (cid : String) (nt? : Option PendRec) (e : Err) :
    ∀ ev ∈ markFailedTrace o cid nt? e, EvOK cid ev := by
  intro ev hev
  unfold markFailedTrace at hev
  rcases nt? with _ | nt
  · simp at hev
  rcases htr : truthyId nt.idtutoria
  · simp [htr] at hev
  · simp only [htr, if_true] at hev
    rcases hf : o.saveFallida with m | u <;> rw [hf] at hev <;> simp [track] at hev <;>
      rcases hev with rfl | rfl | rfl
    · exact ⟨_, _, rfl, Or.inr rfl⟩
    · simp [EvOK]
    · exact ⟨_, _, rfl, Or.inr rfl⟩
    · exact ⟨_, _, rfl, Or.inr rfl⟩
    · simp [EvOK]
    · exact ⟨_, _, rfl, Or.inr rfl⟩

lemma evOK_catchTrace (o : Oracle) (d : Solicitud) (cid : String)
    (nt? : Option PendRec) (e : Err) :
    ∀ ev ∈ catchTrace o d cid nt? e, EvOK cid ev := by
  intro ev hev
  unfold catchTrace at hev
  rcases List.mem_append.mp hev with h | h
  · rcases List.mem_append.mp h with h2 | h2
    · exact evOK_catchTrace1 d cid e ev h2
    · exact evOK_cancelOutcome o cid ev h2
  · exact evOK_markFailed o cid nt? e ev h

lemma evOK_solicitar (o : Oracle) (d : Solicitud) (cid : String) :
    ∀ ev ∈ (solicitarTutoria o d cid).1, EvOK cid ev := by
  rcases hr : (tryBody o d cid).2.2 with e | v
  · rw [solicitar_err o d cid e hr]
    intro ev hev
    rcases List.mem_append.mp hev with h | h
    · exact evOK_tryBody o d cid ev h
    · exact evOK_catchTrace o d cid (tryBody o d cid).2.1 e ev h
  · rw [solicitar_ok o d cid v hr]
    exact evOK_tryBody o d cid


lemma fallida_count_catch_truthy (o : Oracle) (d : Solicitud) (cid : String)
    (nt : PendRec) (e : Err) (hid : truthyId nt.idtutoria = true) :
    ((catchTrace o d cid (some nt) e).countP isSaveFallidaEv) = 1 := by
  unfold catchTrace
  rw [List.countP_append, List.countP_append, fallida_count_cancelOutcome,
    fallida_count_markFailed_truthy o cid nt e hid]
  rfl

lemma fallida_count_catch_none (o : Oracle) (d : Solicitud) (cid : String) (e : Err) :
    ((catchTrace o d cid none e).countP isSaveFallidaEv) = 0 := by
  unfold catchTrace
  rw [List.countP_append, List.countP_append, fallida_count_cancelOutcome]
  rfl

lemma fallida_count_catch_falsy (o : Oracle) (d : Solicitud) (cid : String)
    (nt : PendRec) (e : Err) (hid : truthyId nt.idtutoria = false) :
    ((catchTrace o d cid (some nt) e).countP isSaveFallidaEv) = 0 := by
  unfold catchTrace
  rw [List.countP_append, List.countP_append, fallida_count_cancelOutcome,
    markFailed_falsy o cid nt e hid]
  rfl

lemma solicitar_err_inv (o : Oracle) (d : Solicitud) (cid : String) (e2 : Err)
    (h : (solicitarTutoria o d cid).2 = Except.error e2) :
    ∃ e, (tryBody o d cid).2.2 = Except.error e ∧ e2 = rethrownErr e := by
  rcases hr : (tryBody o d cid).2.2 with e | v
  · rw [solicitar_err o d cid e hr] at h
    simp at h
    exact ⟨e, rfl, h.symm⟩
  · rw [solicitar_ok o d cid v hr] at h
    simp at h

/-- Example fixture: a student user returned by the identity service. -/
def uEst : Usuario := ⟨"est@mail", some "Ana", none⟩

/-- Example fixture: a tutor user returned by the identity service. -/
def uTut : Usuario := ⟨"tut@mail", none, some "Luis"⟩

/-- Example fixture: a tutoring request. -/
def dEj : Solicitud := ⟨"E1", "T1", "2025-01-01T10:00", 60, "Algebra"⟩

/-- Fixture oracle: every collaborator call succeeds (scenario A). -/
def oracleOk : Oracle :=
  ⟨Except.ok (some uEst), Except.ok (some uTut), Except.ok true, Except.ok ⟨some 7⟩,
   Except.ok (), false, Except.ok (), Except.ok (), Except.ok ()⟩

/-- Fixture oracle: the tutor lookup returns no user (scenario B). -/
def oracleB : Oracle := { oracleOk with getTutor := Except.ok none }

/-- Fixture oracle: the schedule lock fails (scenario D). -/
def oracleD : Oracle := { oracleOk with bloquearAgenda := Except.error "agenda caida" }

/-- Fixture oracle: the CONFIRMADA save fails, and during rollback both the
unlock and the FALLIDA save fail as well (scenarios E / P6). -/
def oracleE : Oracle :=
  { oracleOk with saveConfirmada := Except.error "db caida",
                  cancelarBloqueo := Except.error "cancel caida",
                  saveFallida := Except.error "update caida" }

/-- Fixture oracle: the notification publish fails (P5). -/
def oraclePub : Oracle := { oracleOk with publishFails := true }

/-- Fixture oracle: the PENDING save returns a record without a truthy
`idtutoria`, and the CONFIRMADA save later fails. -/
def oracleNoId : Oracle :=
  { oracleOk with savePendiente := Except.ok ⟨none⟩,
                  saveConfirmada := Except.error "db caida" }

/-- C1: in every execution where the schedule lock (step 4) succeeded and a
later step fails, the unlock `agendaClient.cancelarBloqueo` is attempted
exactly once (the only later aborting step being the CONFIRMADA save; the
unawaited publish cannot abort). -/
theorem C1_unlock_exactly_once (o : Oracle) (d : Solicitud) (cid : String)
    (est tut : Usuario) (nt : PendRec) (m : String)
    (h1 : o.getEstudiante = Except.ok (some est))
    (h2 : o.getTutor = Except.ok (some tut))
    (h3 : o.verificarDisponibilidad = Except.ok true)
    (h4 : o.savePendiente = Except.ok nt)
    (h5 : o.bloquearAgenda = Except.ok ())
    (h6 : o.saveConfirmada = Except.error m) :
    ((solicitarTutoria o d cid).1.countP isCancelarEv) = 1 := by
  have htb : (tryBody o d cid).2.2 = Except.error ⟨none, m⟩ := by
    simp [tryBody, h1, h2, h3, h4, h5, h6]
  rw [solicitar_err o d cid _ htb, List.countP_append, cancel_count_tryBody,
    cancel_count_catch]

theorem C1_witness : ((solicitarTutoria oracleE dEj "c1").1.countP isCancelarEv) = 1 :=
  C1_unlock_exactly_once oracleE dEj "c1" uEst uTut ⟨some 7⟩ "db caida"
    rfl rfl rfl rfl rfl rfl

/-- C2 counterexample: in the run where the tutor lookup returns no user
(an execution failing at step 1, before any scheduling call), the code
still calls `agendaClient.cancelarBloqueo` once from its unconditional
catch-block compensation — contradicting the claim that no unlock call
occurs on early failures. -/
theorem C2_counterexample :
    (solicitarTutoria oracleB dEj "c1").2 =
      Except.error ⟨some 404, "No se pudo completar la solicitud: Tutor no encontrado"⟩ ∧
    ((solicitarTutoria oracleB dEj "c1").1.countP isBloquearEv) = 0 ∧
    ((solicitarTutoria oracleB dEj "c1").1.countP isCancelarEv) = 1 :=
  ⟨rfl, by decide, by decide⟩

/-- C2 amended: in every execution failing at steps 1–3 (no PENDING record
was created) no scheduling call of either kind occurs during the forward
pass, and the schedule LOCK is never called at any point of the run; but
the unlock `agendaClient.cancelarBloqueo` is attempted exactly once, and
only inside the catch-block compensation segment that follows the forward
trace — the run's trace is the forward trace (free of scheduling calls)
followed by the catch trace, which contains the single unlock call. -/
theorem C2_amended_no_lock_but_unlock (o : Oracle) (d : Solicitud) (cid : String) (e : Err)
    (h1 : (tryBody o d cid).2.2 = Except.error e)
    (h2 : (tryBody o d cid).2.1 = none) :
    ((tryBody o d cid).1.countP isBloquearEv) = 0 ∧
    ((tryBody o d cid).1.countP isCancelarEv) = 0 ∧
    ((solicitarTutoria o d cid).1.countP isBloquearEv) = 0 ∧
    ((solicitarTutoria o d cid).1.countP isCancelarEv) = 1 ∧
    (solicitarTutoria o d cid).1 = (tryBody o d cid).1 ++ catchTrace o d cid none e ∧
    Event.cancelarBloqueo d.idTutor ⟨d.fechaSolicitada, d.duracionMinutos⟩ cid ∈
      catchTrace o d cid none e := by
  have htrace : (solicitarTutoria o d cid).1 =
      (tryBody o d cid).1 ++ catchTrace o d cid none e := by
    rw [solicitar_err o d cid e h1, h2]
  refine ⟨nt_none_no_lock o d cid h2, cancel_count_tryBody o d cid, ?_, ?_, htrace, ?_⟩
  · rw [htrace, List.countP_append, nt_none_no_lock o d cid h2]
    have : (catchTrace o d cid none e).countP isBloquearEv = 0 :=
      bloquear_count_catch o d cid none e
    rw [this]
  · rw [htrace, List.countP_append, cancel_count_tryBody, cancel_count_catch]
  · unfold catchTrace
    apply List.mem_append.mpr
    left
    apply List.mem_append.mpr
    left
    simp [catchTrace1]

theorem C2_witness :
    ((tryBody oracleB dEj "c1").1.countP isBloquearEv) = 0 ∧
    ((tryBody oracleB dEj "c1").1.countP isCancelarEv) = 0 ∧
    ((solicitarTutoria oracleB dEj "c1").1.countP isBloquearEv) = 0 ∧
    ((solicitarTutoria oracleB dEj "c1").1.countP isCancelarEv) = 1 ∧
    (solicitarTutoria oracleB dEj "c1").1 =
      (tryBody oracleB dEj "c1").1 ++
        catchTrace oracleB dEj "c1" none ⟨some 404, "Tutor no encontrado"⟩ ∧
    Event.cancelarBloqueo "T1" ⟨"2025-01-01T10:00", 60⟩ "c1" ∈
      catchTrace oracleB dEj "c1" none ⟨some 404, "Tutor no encontrado"⟩ :=
  C2_amended_no_lock_but_unlock oracleB dEj "c1" ⟨some 404, "Tutor no encontrado"⟩ rfl rfl

/-- C3: when steps 1–4 and the CONFIRMADA save succeed, a failure of the
notification publish does not abort the saga: `publishToQueue` is invoked
without await (its rejection never enters the control flow), the CONFIRMADA
update is reached, and the confirmed record is returned. -/
theorem C3_publish_nonfatal (o : Oracle) (d : Solicitud) (cid : String)
    (est tut : Usuario) (nt : PendRec)
    (h1 : o.getEstudiante = Except.ok (some est))
    (h2 : o.getTutor = Except.ok (some tut))
    (h3 : o.verificarDisponibilidad = Except.ok true)
    (h4 : o.savePendiente = Except.ok nt)
    (h5 : o.bloquearAgenda = Except.ok ())
    (_hpub : o.publishFails = true)
    (h6 : o.saveConfirmada = Except.ok ()) :
    (solicitarTutoria o d cid).2 = Except.ok ⟨nt.idtutoria, "CONFIRMADA", none⟩ ∧
    Event.saveCall (SavePayload.update ⟨nt.idtutoria, "CONFIRMADA", none⟩) ∈
      (solicitarTutoria o d cid).1 := by
  have htb : tryBody o d cid =
      (traceConfirm d cid nt est tut ++ [track cid "Tutoría CONFIRMADA correctamente." "INFO"],
       some nt, Except.ok ⟨nt.idtutoria, "CONFIRMADA", none⟩) := by
    simp [tryBody, h1, h2, h3, h4, h5, h6]
  have heq := solicitar_ok o d cid ⟨nt.idtutoria, "CONFIRMADA", none⟩ (by rw [htb])
  rw [heq]
  refine ⟨rfl, ?_⟩
  rw [htb]
  simp [traceConfirm, traceBloqueo, traceSave, traceAgenda, traceUsers, track]

theorem C3_witness :
    (solicitarTutoria oraclePub dEj "c1").2 =
      Except.ok ⟨(⟨some 7⟩ : PendRec).idtutoria, "CONFIRMADA", none⟩ ∧
    Event.saveCall (SavePayload.update ⟨(⟨some 7⟩ : PendRec).idtutoria, "CONFIRMADA", none⟩) ∈
      (solicitarTutoria oraclePub dEj "c1").1 :=
  C3_publish_nonfatal oraclePub dEj "c1" uEst uTut ⟨some 7⟩ rfl rfl rfl rfl rfl rfl rfl

/-- C4: in every aborting execution, even when both the schedule unlock and
the final mark-FAILED save fail during rollback, the error thrown to the
caller is derived from the original failure alone — its statusCode (or 500)
and its message — and the rollback errors never appear in it. -/
theorem C4_compensation_isolation (o : Oracle) (d : Solicitud) (cid : String)
    (e : Err) (m1 m2 : String)
    (h : (tryBody o d cid).2.2 = Except.error e)
    (_hc : o.cancelarBloqueo = Except.error m1)
    (_hs : o.saveFallida = Except.error m2) :
    (solicitarTutoria o d cid).2 =
      Except.error ⟨some (jsOrCode e.statusCode),
        "No se pudo completar la solicitud: " ++ e.message⟩ := by
  rw [solicitar_err o d cid e h]
  rfl

theorem C4_witness :
    (solicitarTutoria oracleE dEj "c1").2 =
      Except.error ⟨some (jsOrCode (⟨none, "db caida"⟩ : Err).statusCode),
        "No se pudo completar la solicitud: " ++ (⟨none, "db caida"⟩ : Err).message⟩ :=
  C4_compensation_isolation oracleE dEj "c1" ⟨none, "db caida"⟩ "cancel caida" "update caida"
    rfl rfl rfl


/-- C5: every error thrown by `solicitarTutoria` carries the status hint of
the original classified cause — 404 for a missing student or tutor, 409 for
an unavailable slot, 500 for any collaborator (persistence / scheduling /
unclassified) failure — and a message embedding the proximate cause behind
the fixed prefix, never the raw collaborator error object. -/
theorem C5_error_fidelity (o : Oracle) (d : Solicitud) (cid : String) (e2 : Err)
    (h : (solicitarTutoria o d cid).2 = Except.error e2) :
    (e2.statusCode = some 404 ∧
      (e2.message = "No se pudo completar la solicitud: Estudiante no encontrado" ∨
       e2.message = "No se pudo completar la solicitud: Tutor no encontrado")) ∨
    (e2.statusCode = some 409 ∧
      e2.message = "No se pudo completar la solicitud: Horario no disponible") ∨
    (e2.statusCode = some 500 ∧ ∃ m, (tryBody o d cid).2.2 = Except.error ⟨none, m⟩ ∧
      e2.message = "No se pudo completar la solicitud: " ++ m) := by
  obtain ⟨e, htb, he2⟩ := solicitar_err_inv o d cid e2 h
  subst he2
  rcases tryBody_err_shape o d cid e htb with h4 | h4 | h4 | h4
  · subst h4
    exact Or.inl ⟨rfl, Or.inl rfl⟩
  · subst h4
    exact Or.inl ⟨rfl, Or.inr rfl⟩
  · subst h4
    exact Or.inr (Or.inl ⟨rfl, rfl⟩)
  · rcases e with ⟨sc, msg⟩
    simp at h4
    subst h4
    exact Or.inr (Or.inr ⟨rfl, msg, htb, rfl⟩)

theorem C5_witness :
    ((⟨some 500, "No se pudo completar la solicitud: agenda caida"⟩ : Err).statusCode = some 404 ∧
      ((⟨some 500, "No se pudo completar la solicitud: agenda caida"⟩ : Err).message =
         "No se pudo completar la solicitud: Estudiante no encontrado" ∨
       (⟨some 500, "No se pudo completar la solicitud: agenda caida"⟩ : Err).message =
         "No se pudo completar la solicitud: Tutor no encontrado")) ∨
    ((⟨some 500, "No se pudo completar la solicitud: agenda caida"⟩ : Err).statusCode = some 409 ∧
      (⟨some 500, "No se pudo completar la solicitud: agenda caida"⟩ : Err).message =
        "No se pudo completar la solicitud: Horario no disponible") ∨
    ((⟨some 500, "No se pudo completar la solicitud: agenda caida"⟩ : Err).statusCode = some 500 ∧
      ∃ m, (tryBody oracleD dEj "c1").2.2 = Except.error ⟨none, m⟩ ∧
        (⟨some 500, "No se pudo completar la solicitud: agenda caida"⟩ : Err).message =
          "No se pudo completar la solicitud: " ++ m) :=
  C5_error_fidelity oracleD dEj "c1"
    ⟨some 500, "No se pudo completar la solicitud: agenda caida"⟩ rfl

/-- C6 counterexample: in the full-success run the saga does return the
CONFIRMADA record, but the tracking sequence contains 12 INFO events, not
the 6 the claim states. -/
theorem C6_counterexample :
    (solicitarTutoria oracleOk dEj "c1").2 = Except.ok ⟨some 7, "CONFIRMADA", none⟩ ∧
    ((solicitarTutoria oracleOk dEj "c1").1.countP isInfoTrack) = 12 ∧
    ((solicitarTutoria oracleOk dEj "c1").1.countP isInfoTrack) ≠ 6 :=
  ⟨rfl, by decide, by decide⟩

/-- C6 amended: when both users exist, the slot is available and every
collaborator call succeeds, `solicitarTutoria` returns the record in
CONFIRMADA state and the tracking sequence contains exactly 12 INFO events
and no ERROR events. -/
theorem C6_amended_confirmed_twelve_info (o : Oracle) (d : Solicitud) (cid : String)
    (est tut : Usuario) (nt : PendRec)
    (h1 : o.getEstudiante = Except.ok (some est))
    (h2 : o.getTutor = Except.ok (some tut))
    (h3 : o.verificarDisponibilidad = Except.ok true)
    (h4 : o.savePendiente = Except.ok nt)
    (h5 : o.bloquearAgenda = Except.ok ())
    (_h6 : o.publishFails = false)
    (h7 : o.saveConfirmada = Except.ok ()) :
    (solicitarTutoria o d cid).2 = Except.ok ⟨nt.idtutoria, "CONFIRMADA", none⟩ ∧
    ((solicitarTutoria o d cid).1.countP isInfoTrack) = 12 ∧
    ((solicitarTutoria o d cid).1.countP isErrorTrack) = 0 := by
  have htb : tryBody o d cid =
      (traceConfirm d cid nt est tut ++ [track cid "Tutoría CONFIRMADA correctamente." "INFO"],
       some nt, Except.ok ⟨nt.idtutoria, "CONFIRMADA", none⟩) := by
    simp [tryBody, h1, h2, h3, h4, h5, h7]
  have heq := solicitar_ok o d cid ⟨nt.idtutoria, "CONFIRMADA", none⟩ (by rw [htb])
  rw [heq, htb]
  exact ⟨rfl, rfl, rfl⟩

theorem C6_witness :
    (solicitarTutoria oracleOk dEj "c1").2 =
      Except.ok ⟨(⟨some 7⟩ : PendRec).idtutoria, "CONFIRMADA", none⟩ ∧
    ((solicitarTutoria oracleOk dEj "c1").1.countP isInfoTrack) = 12 ∧
    ((solicitarTutoria oracleOk dEj "c1").1.countP isErrorTrack) = 0 :=
  C6_amended_confirmed_twelve_info oracleOk dEj "c1" uEst uTut ⟨some 7⟩
    rfl rfl rfl rfl rfl rfl rfl

/-- C7: in every aborting execution where step 3's save succeeded (yielding
a record with a truthy `idtutoria`, as the spec's record store assigns ids
on first save), exactly one FALLIDA save is attempted, with `error` set to
the proximate failure's message; its own failure is swallowed (the thrown
error is still derived from the original failure); and across the whole
run every update-save payload has a non-null `error` iff its `estado` is
FALLIDA (the CONFIRMADA update sets it to null). -/
theorem C7_mark_failed_once (o : Oracle) (d : Solicitud) (cid : String)
    (e : Err) (nt : PendRec)
    (habort : (tryBody o d cid).2.2 = Except.error e)
    (hnt : (tryBody o d cid).2.1 = some nt)
    (hid : truthyId nt.idtutoria = true) :
    ((solicitarTutoria o d cid).1.countP isSaveFallidaEv) = 1 ∧
    Event.saveCall (SavePayload.update ⟨nt.idtutoria, "FALLIDA", some e.message⟩) ∈
      (solicitarTutoria o d cid).1 ∧
    (solicitarTutoria o d cid).2 = Except.error (rethrownErr e) ∧
    (∀ p, Event.saveCall (SavePayload.update p) ∈ (solicitarTutoria o d cid).1 →
      (p.estado = "FALLIDA" ↔ p.error ≠ none)) := by
  have heq := solicitar_err o d cid e habort
  have h1 : (solicitarTutoria o d cid).1 =
      (tryBody o d cid).1 ++ catchTrace o d cid (some nt) e := by
    rw [heq, hnt]
  refine ⟨?_, ?_, by rw [heq], ?_⟩
  · rw [h1, List.countP_append, fallida_count_tryBody,
      fallida_count_catch_truthy o d cid nt e hid]
  · rw [h1]
    apply List.mem_append.mpr
    right
    unfold catchTrace
    apply List.mem_append.mpr
    right
    unfold markFailedTrace
    simp only [hid, if_true]
    apply List.mem_append.mpr
    left
    simp
  · intro p hp
    have hOK := evOK_solicitar o d cid (Event.saveCall (SavePayload.update p)) hp
    simpa [EvOK] using hOK

theorem C7_witness :
    ((solicitarTutoria oracleE dEj "c1").1.countP isSaveFallidaEv) = 1 ∧
    Event.saveCall (SavePayload.update
        ⟨(⟨some 7⟩ : PendRec).idtutoria, "FALLIDA",
         some (⟨none, "db caida"⟩ : Err).message⟩) ∈
      (solicitarTutoria oracleE dEj "c1").1 ∧
    (solicitarTutoria oracleE dEj "c1").2 =
      Except.error (rethrownErr ⟨none, "db caida"⟩) ∧
    (∀ p, Event.saveCall (SavePayload.update p) ∈ (solicitarTutoria oracleE dEj "c1").1 →
      (p.estado = "FALLIDA" ↔ p.error ≠ none)) :=
  C7_mark_failed_once oracleE dEj "c1" ⟨none, "db caida"⟩ ⟨some 7⟩ rfl rfl rfl


/-- C8 counterexample: in the full-success run the PENDING save is a
collaborator call made with no correlation id among its arguments — the
source invokes `tutoriaRepository.save(payload)` with the payload only —
so the correlation id is NOT passed to every collaborator call. -/
theorem C8_counterexample :
    Event.saveCall (SavePayload.pendiente
        ⟨"E1", "T1", "2025-01-01T10:00", "Algebra", "PENDIENTE"⟩) ∈
      (solicitarTutoria oracleOk dEj "c1").1 ∧
    eventCid (Event.saveCall (SavePayload.pendiente
        ⟨"E1", "T1", "2025-01-01T10:00", "Algebra", "PENDIENTE"⟩)) = none :=
  ⟨by decide, rfl⟩

/-- C8 amended: the correlation id is passed unchanged to every identity
lookup, the availability check, the schedule lock and unlock, the
notification publish (inside its payload), and every tracking event — but
the record-store save calls receive no correlation id at all. -/
theorem C8_amended_cid_propagation (o : Oracle) (d : Solicitud) (cid : String) :
    ∀ ev ∈ (solicitarTutoria o d cid).1,
      (isSaveEv ev = true → eventCid ev = none) ∧
      (isTrackEv ev = false → isSaveEv ev = false → eventCid ev = some cid) ∧
      (isTrackEv ev = true → trackCidOf ev = some cid) := by
  intro ev hev
  have h := evOK_solicitar o d cid ev hev
  rcases ev with p | ⟨k, i, c⟩ | ⟨t, f, c⟩ | sp | ⟨t, p, c⟩ | ⟨q, p⟩ | ⟨t, p, c⟩
  · obtain ⟨m, s, rfl, _⟩ := h
    refine ⟨?_, ?_, fun _ => rfl⟩
    · intro hs
      simp [isSaveEv] at hs
    · intro habs _
      simp [isTrackEv] at habs
  · exact ⟨fun hs => by simp [isSaveEv] at hs,
      fun _ _ => by simp [eventCid]; exact h, fun ht => by simp [isTrackEv] at ht⟩
  · exact ⟨fun hs => by simp [isSaveEv] at hs,
      fun _ _ => by simp [eventCid]; exact h, fun ht => by simp [isTrackEv] at ht⟩
  · exact ⟨fun _ => rfl, fun _ habs => by simp [isSaveEv] at habs,
      fun ht => by simp [isTrackEv] at ht⟩
  · exact ⟨fun hs => by simp [isSaveEv] at hs,
      fun _ _ => by simp [eventCid]; exact h, fun ht => by simp [isTrackEv] at ht⟩
  · exact ⟨fun hs => by simp [isSaveEv] at hs,
      fun _ _ => by simp [eventCid]; exact h, fun ht => by simp [isTrackEv] at ht⟩
  · exact ⟨fun hs => by simp [isSaveEv] at hs,
      fun _ _ => by simp [eventCid]; exact h, fun ht => by simp [isTrackEv] at ht⟩

theorem C8_witness :
    (isSaveEv (Event.getUsuario "tutores" "T1" "c1") = true →
      eventCid (Event.getUsuario "tutores" "T1" "c1") = none) ∧
    (isTrackEv (Event.getUsuario "tutores" "T1" "c1") = false →
      isSaveEv (Event.getUsuario "tutores" "T1" "c1") = false →
      eventCid (Event.getUsuario "tutores" "T1" "c1") = some "c1") ∧
    (isTrackEv (Event.getUsuario "tutores" "T1" "c1") = true →
      trackCidOf (Event.getUsuario "tutores" "T1" "c1") = some "c1") :=
  C8_amended_cid_propagation oracleOk dEj "c1" (Event.getUsuario "tutores" "T1" "c1")
    (by decide)

/-- C9 counterexample: the tracking events emitted by `track` carry
`service = "MS_Tutorias"` (not `"tutoring-saga"`) and expose the
correlation id under the field name `cid`, with no `correlationId` field
at all. -/
theorem C9_counterexample :
    Event.trackEv (trackPayload "c1" "Validando usuarios..." "INFO") ∈
      (solicitarTutoria oracleOk dEj "c1").1 ∧
    (trackPayload "c1" "Validando usuarios..." "INFO").lookup "service" =
      some (JVal.str "MS_Tutorias") ∧
    "MS_Tutorias" ≠ "tutoring-saga" ∧
    (trackPayload "c1" "Validando usuarios..." "INFO").lookup "correlationId" = none ∧
    (trackPayload "c1" "Validando usuarios..." "INFO").lookup "cid" =
      some (JVal.str "c1") :=
  ⟨by decide, rfl, by decide, rfl, rfl⟩

/-- C9 amended: every tracking event is exactly the object
`{service, message, cid, timestamp, status}` built by `track`, with
`service = "MS_Tutorias"`, `status ∈ {INFO, ERROR}`, the run's correlation
id stored under the field name `cid`, and no `correlationId` field. -/
theorem C9_amended_track_shape (o : Oracle) (d : Solicitud) (cid : String) :
    ∀ ev ∈ (solicitarTutoria o d cid).1, isTrackEv ev = true →
      ∃ m s, ev = Event.trackEv (trackPayload cid m s) ∧ (s = "INFO" ∨ s = "ERROR") ∧
        (trackPayload cid m s).lookup "service" = some (JVal.str "MS_Tutorias") ∧
        (trackPayload cid m s).lookup "cid" = some (JVal.str cid) ∧
        (trackPayload cid m s).lookup "message" = some (JVal.str m) ∧
        (trackPayload cid m s).lookup "status" = some (JVal.str s) ∧
        (trackPayload cid m s).lookup "correlationId" = none := by
  intro ev hev htr
  have h := evOK_solicitar o d cid ev hev
  rcases ev with p | ⟨k, i, c⟩ | ⟨t, f, c⟩ | sp | ⟨t, p, c⟩ | ⟨q, p⟩ | ⟨t, p, c⟩
  · obtain ⟨m, s, rfl, hs⟩ := h
    exact ⟨m, s, rfl, hs, rfl, rfl, rfl, rfl, rfl⟩
  all_goals simp [isTrackEv] at htr

theorem C9_witness :
    ∃ m s, Event.trackEv (trackPayload "c1" "Validando usuarios..." "INFO") =
        Event.trackEv (trackPayload "c1" m s) ∧ (s = "INFO" ∨ s = "ERROR") ∧
      (trackPayload "c1" m s).lookup "service" = some (JVal.str "MS_Tutorias") ∧
      (trackPayload "c1" m s).lookup "cid" = some (JVal.str "c1") ∧
      (trackPayload "c1" m s).lookup "message" = some (JVal.str m) ∧
      (trackPayload "c1" m s).lookup "status" = some (JVal.str s) ∧
      (trackPayload "c1" m s).lookup "correlationId" = none :=
  C9_amended_track_shape oracleOk dEj "c1"
    (Event.trackEv (trackPayload "c1" "Validando usuarios..." "INFO"))
    (by decide) (by decide)

/-- C10: in every aborting execution the FALLIDA save is attempted exactly
once iff the value step 3's save returned (the `nuevaTutoria` variable)
has a truthy `idtutoria`; that value is exactly what `savePendiente`
returned; and when it is present but falsy the catch block ends right
after the unlock part — no FALLIDA save and no tracking event about it. -/
theorem C10_mark_failed_guard (o : Oracle) (d : Solicitud) (cid : String) (e : Err)
    (h : (tryBody o d cid).2.2 = Except.error e) :
    (((solicitarTutoria o d cid).1.countP isSaveFallidaEv) = 1 ↔
      ∃ nt, (tryBody o d cid).2.1 = some nt ∧ truthyId nt.idtutoria = true) ∧
    (∀ nt, (tryBody o d cid).2.1 = some nt → o.savePendiente = Except.ok nt) ∧
    (∀ nt, (tryBody o d cid).2.1 = some nt → truthyId nt.idtutoria = false →
      (solicitarTutoria o d cid).1 =
        (tryBody o d cid).1 ++ (catchTrace1 d cid e ++ cancelOutcomeTrace o cid)) := by
  have heq := solicitar_err o d cid e h
  have htrace : (solicitarTutoria o d cid).1 =
      (tryBody o d cid).1 ++ catchTrace o d cid (tryBody o d cid).2.1 e := by
    rw [heq]
  refine ⟨?_, fun nt hnt => nt_some_savePendiente o d cid nt hnt, fun nt hnt hf => ?_⟩
  · rw [htrace, List.countP_append, fallida_count_tryBody]
    rcases hnt : (tryBody o d cid).2.1 with _ | nt
    · simp [fallida_count_catch_none o d cid e]
    · rcases htr : truthyId nt.idtutoria
      · simp [fallida_count_catch_falsy o d cid nt e htr, htr]
      · simp [fallida_count_catch_truthy o d cid nt e htr, htr]
  · rw [htrace, hnt]
    unfold catchTrace
    rw [markFailed_falsy o cid nt e hf]
    simp

theorem C10_witness :
    ((solicitarTutoria oracleNoId dEj "c1").1.countP isSaveFallidaEv) = 1 ↔
      ∃ nt, (tryBody oracleNoId dEj "c1").2.1 = some nt ∧ truthyId nt.idtutoria = true :=
  (C10_mark_failed_guard oracleNoId dEj "c1" ⟨none, "db caida"⟩ rfl).1

end Tutorias
